import Mathlib

/-!
Shallow embedding of the `aiohttp_json_api` field/registry layer:
`registry.py` (`Registry.get_schema`, `Registry.ensure_identifier`) and
`fields/attributes.py` (the attribute field classes).

Modelling conventions:
* Python floats are modelled as rationals (`ℚ`); none of the properties
  settled here depend on binary rounding.
* JSON wire values are modelled by `JVal`; JSON object keys are strings.
* Python dicts are modelled as association lists looked up by `alistGet`
  (first match; entries are meant to have distinct keys, as a dict does).
* Raising is modelled by the `Except` monad with error type `PyErr`; the
  typed API errors `InvalidType`/`InvalidValue` carry their detail and
  source pointer; the untyped Python exceptions are separate constructors.
* A JSON pointer is modelled as its list of reference tokens; `sp / token`
  appends a token (`spDiv`).
-/

/-- The two typed API errors of `aiohttp_json_api.errors` that the field
layer raises (`InvalidType`, `InvalidValue`), together with the untyped
Python exceptions the embedded code can raise. -/
inductive PyErr where
  | invalidType (detail : String) (sp : List String)
  | invalidValue (detail : String) (sp : List String)
  | keyError
  | assertionError
  | valueError
  | typeError
  | nameError
  | attributeError
  | indexError
  | zeroDivisionError
  | dataError (detail : String)
deriving DecidableEq, Repr

/-- A JSON pointer, as its list of reference tokens. -/
abbrev SP := List String

/-- `sp / token` on a JSON pointer. -/
def spDiv (sp : SP) (token : String) : SP := sp ++ [token]

/-- A JSON wire value.  Numbers keep the int/float distinction that Python
makes; object keys are strings, as in JSON. -/
inductive JVal where
  | jNone
  | jBool (b : Bool)
  | jInt (n : Int)
  | jFloat (q : ℚ)
  | jStr (s : String)
  | jArr (xs : List JVal)
  | jObj (entries : List (String × JVal))
deriving Repr

/-- Association-list lookup: first entry whose key matches.  This models
`d.get(k)`/`d[k]`/`k in d` on a Python dict whose entries have distinct
keys. -/
def alistGet {κ α : Type} [DecidableEq κ] : List (κ × α) → κ → Option α
  | [], _ => Option.none
  | (k, v) :: rest, key => if key = k then some v else alistGet rest key

theorem alistGet_mem {κ α : Type} [DecidableEq κ] :
    ∀ (l : List (κ × α)) (k : κ) (v : α), alistGet l k = some v → ∃ p ∈ l, p.2 = v := by
  intro l
  induction l with
  | nil => intro k v h; simp [alistGet] at h
  | cons p rest ih =>
      intro k v h
      obtain ⟨pk, pv⟩ := p
      by_cases hk : k = pk
      · simp [alistGet, hk] at h
        exact ⟨(pk, pv), List.mem_cons_self _ _, h⟩
      · simp [alistGet, hk] at h
        rcases ih k v h with ⟨q, hq, hv⟩
        exact ⟨q, List.mem_cons_of_mem _ hq, hv⟩

/- ----------------------------------------------------------------------
`registry.py`
---------------------------------------------------------------------- -/

/-- A Python class (only its identity matters for dictionary lookups). -/
structure PyType where
  name : String
deriving DecidableEq, Repr

/-- An object handed to the registry: a typename string, or a resource
instance of some class (distinguished by an id so distinct instances are
distinct dictionary keys). -/
inductive RObj where
  | ofStr (s : String)
  | inst (ty : PyType) (oid : ℕ)
deriving DecidableEq, Repr

/-- `type(obj)`. -/
def RObj.typeOf : RObj → PyType
  | .ofStr _ => ⟨"str"⟩
  | .inst ty _ => ty

/-- A key of the registry dictionaries: a class or an object (a Python dict
can hold both kinds of key at once). -/
inductive RKey where
  | ofType (t : PyType)
  | ofObj (o : RObj)
deriving DecidableEq, Repr

/-- A value stored in (or returned from) the registry dictionaries:
`None`, some non-`None` falsy object, or a schema object (truthy),
carrying its typename. -/
inductive SVal where
  | vNone
  | vFalsy
  | vSchema (typename : String)
deriving DecidableEq, Repr

/-- Python truthiness of an `SVal`: schema objects are truthy, `None` and
`vFalsy` are falsy. -/
def SVal.truthy : SVal → Bool
  | .vSchema _ => true
  | _ => false

/-- Python `a or b`: `a` when `a` is truthy, otherwise `b`. -/
def pyOr (a b : SVal) : SVal := if a.truthy then a else b

/-- `attr.s`-generated `Registry`: two dictionaries. -/
structure Registry where
  schema_by_type : List (RKey × SVal)
  schema_by_resource : List (RKey × SVal)
deriving Repr

/-- `d.get(k)`: the stored value, or `None` when the key is absent (a
stored `None` is indistinguishable from a miss). -/
def pyGet (d : List (RKey × SVal)) (k : RKey) : SVal :=
  (alistGet d k).getD SVal.vNone

/-- `Registry.get_schema` (registry.py lines 16-38).  `default = none`
models the `ARG_DEFAULT` sentinel, i.e. no default given. -/
def Registry.get_schema (r : Registry) (obj : RObj) (default : Option SVal) :
    Except PyErr SVal :=
  let schema :=
    pyOr (pyOr (pyGet r.schema_by_resource (.ofType obj.typeOf))
               (pyGet r.schema_by_resource (.ofObj obj)))
         (pyGet r.schema_by_type (.ofObj obj))
  if schema ≠ SVal.vNone then
    .ok schema
  else
    match default with
    | some d => .ok d
    | Option.none => .error .keyError

/-- A primitive identifier member (a tuple entry or a dict value);
`pyStrOf` is Python `str()` of it. -/
inductive PyPrim where
  | pstr (s : String)
  | pint (n : Int)
deriving DecidableEq, Repr

/-- Python `str()` on a primitive identifier member. -/
def pyStrOf : PyPrim → String
  | .pstr s => s
  | .pint n => toString n

/-- The `ResourceID` namedtuple of registry.py. -/
structure ResourceID where
  type : String
  id : String
deriving DecidableEq, Repr

/-- The argument of `ensure_identifier`.  A Python `str` is itself a
`collections.Sequence` (of one-character strings); tuples and lists are
sequences; dicts are mappings; any other object falls through to schema
resolution. -/
inductive IdInput where
  | ofStr (s : String)
  | tuple (xs : List PyPrim)
  | mapping (entries : List (String × PyPrim))
  | resource (o : RObj)
deriving Repr

/-- `Registry.ensure_identifier` (registry.py lines 40-66), for
`asdict=False` (the `asdict` flag only converts the final namedtuple).
`getId` models the external `schema._get_id`. -/
def Registry.ensure_identifier (r : Registry) (getId : String → RObj → String) :
    IdInput → Except PyErr ResourceID
  | .ofStr s =>
      -- a str is a Sequence: len(s) characters, s[i] its i-th character
      if s.toList.length = 2 then
        .ok ⟨String.singleton (s.toList.getD 0 ' '),
             String.singleton (s.toList.getD 1 ' ')⟩
      else .error .assertionError
  | .tuple xs =>
      -- assert len(obj) == 2; ResourceID(str(obj[0]), str(obj[1]))
      if xs.length = 2 then
        .ok ⟨pyStrOf (xs.getD 0 (.pstr "")), pyStrOf (xs.getD 1 (.pstr ""))⟩
      else .error .assertionError
  | .mapping es =>
      -- ResourceID(str(obj['type']), str(obj['id'])); a missing key raises KeyError
      match alistGet es "type" with
      | Option.none => .error .keyError
      | some t =>
        match alistGet es "id" with
        | Option.none => .error .keyError
        | some i => .ok ⟨pyStrOf t, pyStrOf i⟩
  | .resource o =>
      match r.get_schema o Option.none with
      | .error e => .error e
      | .ok (.vSchema tn) => .ok ⟨tn, getId tn o⟩
      | .ok _ => .error .attributeError

/- ----------------------------------------------------------------------
`fields/attributes.py`: shared conversions
---------------------------------------------------------------------- -/

/-- `data is None`. -/
def JVal.isNone : JVal → Bool
  | .jNone => true
  | _ => false

/-- `isinstance(x, (int, float))`, with the numeric value of `x`.
A Python `bool` is a subclass of `int`, so booleans count as 0 and 1. -/
def JVal.numVal : JVal → Option ℚ
  | .jBool b => some (if b then 1 else 0)
  | .jInt n => some (n : ℚ)
  | .jFloat q => some q
  | _ => Option.none

/-- `isinstance(x, int)`, with the integer value of `x` (booleans count). -/
def JVal.intVal : JVal → Option Int
  | .jBool b => some (if b then 1 else 0)
  | .jInt n => some n
  | _ => Option.none

/-- Digit list to number, most significant first. -/
def digitsToNat (cs : List Char) : ℕ :=
  cs.foldl (fun n c => n * 10 + (c.toNat - 48)) 0

/-- Python `str.strip()` of surrounding whitespace, on a character list
(both `float()` and `int()` strip their string argument). -/
def pyStrip (cs : List Char) : List Char :=
  ((cs.dropWhile Char.isWhitespace).reverse.dropWhile Char.isWhitespace).reverse

/-- Models the Python builtin `float` on decimal string literals: optional
sign, integer part, optional fractional part, surrounding whitespace.
Returns `none` where Python raises `ValueError`.  Exponent notation and
the special words (`inf`, `nan`) are outside this model. -/
def parseFloat (s : String) : Option ℚ :=
  let cs := pyStrip s.toList
  let sb : Int × List Char :=
    match cs with
    | '-' :: rest => (-1, rest)
    | '+' :: rest => (1, rest)
    | _ => (1, cs)
  let intPart := sb.2.takeWhile Char.isDigit
  let rest := sb.2.dropWhile Char.isDigit
  match rest with
  | [] =>
      if intPart.isEmpty then Option.none
      else some ((sb.1 : ℚ) * (digitsToNat intPart : ℚ))
  | '.' :: frac =>
      if frac.all Char.isDigit && !(intPart.isEmpty && frac.isEmpty) then
        some ((sb.1 : ℚ) *
          ((digitsToNat intPart : ℚ) + (digitsToNat frac : ℚ) / ((10 : ℚ) ^ frac.length)))
      else Option.none
  | _ => Option.none

/-- Models the Python builtin `int` on decimal string literals: optional
sign, digits, surrounding whitespace.  `none` where Python raises
`ValueError`. -/
def parseInt (s : String) : Option Int :=
  let cs := pyStrip s.toList
  let sb : Int × List Char :=
    match cs with
    | '-' :: rest => (-1, rest)
    | '+' :: rest => (1, rest)
    | _ => (1, cs)
  if !sb.2.isEmpty && sb.2.all Char.isDigit then some (sb.1 * (digitsToNat sb.2 : ℤ))
  else Option.none

/-- The Python builtin `float(data)`: numbers convert (booleans are ints),
numeric strings parse (`ValueError` for other strings), anything else
raises `TypeError`. -/
def pyFloat : JVal → Except PyErr ℚ
  | .jBool b => .ok (if b then 1 else 0)
  | .jInt n => .ok (n : ℚ)
  | .jFloat q => .ok q
  | .jStr s =>
      match parseFloat s with
      | some q => .ok q
      | Option.none => .error .valueError
  | _ => .error .typeError

/-- Rounding toward zero, as the Python builtin `int` does on a float. -/
def ratTrunc (q : ℚ) : Int := if 0 ≤ q then ⌊q⌋ else ⌈q⌉

/-- The Python builtin `int(data)`. -/
def pyInt : JVal → Except PyErr Int
  | .jBool b => .ok (if b then 1 else 0)
  | .jInt n => .ok n
  | .jFloat q => .ok (ratTrunc q)
  | .jStr s =>
      match parseInt s with
      | some n => .ok n
      | Option.none => .error .valueError
  | _ => .error .typeError

/- ----------------------------------------------------------------------
`Complex` (attributes.py lines 188-219)
---------------------------------------------------------------------- -/

/-- A Python `complex` number (components modelled as rationals). -/
structure PyComplex where
  re : ℚ
  im : ℚ
deriving DecidableEq, Repr

namespace ComplexAttr

/-- `Complex.pre_validate` (attributes.py lines 195-212).  The checks run
in source order: mapping, `'real' in data`, `'imag' in data`, real part
numeric, imaginary part numeric. -/
def pre_validate (data : JVal) (sp : SP) : Except PyErr Unit :=
  match data with
  | .jObj es =>
      match alistGet es "real" with
      | Option.none => .error (.invalidValue "Does not have a 'real' member." sp)
      | some re =>
        match alistGet es "imag" with
        | Option.none => .error (.invalidValue "Does not have an 'imag' member." sp)
        | some im =>
          match re.numVal with
          | Option.none =>
              .error (.invalidValue "The real part must be a number." (spDiv sp "real"))
          | some _ =>
            match im.numVal with
            | Option.none =>
                .error (.invalidValue "The imaginar part must be a number." (spDiv sp "imag"))
            | some _ => .ok ()
  | _ => .error (.invalidType "Must be an object with a 'real' and 'imag' member.'" sp)

/-- `Complex.deserialize` (attributes.py lines 214-215):
`complex(data['real'], data['imag'])`.  Subscripting a non-mapping with a
string key raises `TypeError`, a missing key raises `KeyError`, and
`complex()` of non-numbers raises `TypeError`. -/
def deserialize (data : JVal) (_sp : SP) : Except PyErr PyComplex :=
  match data with
  | .jObj es =>
      match alistGet es "real" with
      | Option.none => .error .keyError
      | some re =>
        match alistGet es "imag" with
        | Option.none => .error .keyError
        | some im =>
          match re.numVal, im.numVal with
          | some a, some b => .ok ⟨a, b⟩
          | _, _ => .error .typeError
  | _ => .error .typeError

/-- `Complex.serialize` (attributes.py lines 217-219): `complex(data)` is
the identity on a complex number, and the result is
`{'real': data.real, 'imag': data.imag}` (both components are floats). -/
def serialize (z : PyComplex) : JVal :=
  .jObj [("real", .jFloat z.re), ("imag", .jFloat z.im)]

end ComplexAttr

/- ----------------------------------------------------------------------
`Fraction` (attributes.py lines 257-318)
---------------------------------------------------------------------- -/

/-- The `Fraction` descriptor: its `min`/`max` bounds (`__init__` asserts
`min <= max` when both are given). -/
structure Fraction where
  min : Option ℚ
  max : Option ℚ
deriving DecidableEq, Repr

/-- The `self.max`/`val` comparison at the end of `Fraction.pre_validate`. -/
def Fraction.checkMax (f : Fraction) (val : ℚ) (sp : SP) : Except PyErr Unit :=
  match f.max with
  | some m =>
      if m < val then .error (.invalidValue s!"Must be <= {m}." sp) else .ok ()
  | Option.none => .ok ()

/-- `Fraction.pre_validate` (attributes.py lines 285-312), checks in source
order: dict, `'numerator'` member, `'denominator'` member, numerator
integer, denominator integer, denominator non-zero, then
`val = numerator / denominator` against the `min`/`max` bounds. -/
def Fraction.pre_validate (f : Fraction) (data : JVal) (sp : SP) : Except PyErr Unit :=
  match data with
  | .jObj es =>
      match alistGet es "numerator" with
      | Option.none => .error (.invalidValue "Does not have a 'numerator' member." sp)
      | some num =>
        match alistGet es "denominator" with
        | Option.none => .error (.invalidValue "Does not have a 'denominator' member." sp)
        | some den =>
          match num.intVal with
          | Option.none =>
              .error (.invalidValue "The numerator must be an integer." (spDiv sp "numerator"))
          | some n =>
            match den.intVal with
            | Option.none =>
                .error (.invalidValue "The denominator must be an integer."
                  (spDiv sp "denominator"))
            | some d =>
              if d = 0 then
                .error (.invalidValue "The denominator must be not equal to zero."
                  (spDiv sp "denominator"))
              else
                let val : ℚ := (n : ℚ) / (d : ℚ)
                match f.min with
                | some m =>
                    if m > val then .error (.invalidValue s!"Must be >= {m}." sp)
                    else f.checkMax val sp
                | Option.none => f.checkMax val sp
  | _ => .error (.invalidType "Must be an object with a 'numerator' and 'denominator' member." sp)

/-- `Fraction.deserialize` (attributes.py lines 314-315):
`fractions.Fraction(int(data[0]), int(data[1]))`.  Note that `data` is
subscripted with the integer keys `0` and `1`, not with
`'numerator'`/`'denominator'`: on a JSON object (string keys) that raises
`KeyError`; sequences are indexed positionally.  The resulting fraction is
the rational value `n/d` (`fractions.Fraction` normalises). -/
def Fraction.deserialize (_f : Fraction) (data : JVal) (_sp : SP) : Except PyErr ℚ :=
  match data with
  | .jObj _ => .error .keyError
  | .jArr xs =>
      match xs[0]? with
      | Option.none => .error .indexError
      | some a =>
        match pyInt a with
        | .error e => .error e
        | .ok n =>
          match xs[1]? with
          | Option.none => .error .indexError
          | some b =>
            match pyInt b with
            | .error e => .error e
            | .ok d =>
                if d = 0 then .error .zeroDivisionError else .ok ((n : ℚ) / (d : ℚ))
  | .jStr s =>
      match s.toList[0]? with
      | Option.none => .error .indexError
      | some a =>
        match pyInt (.jStr (String.singleton a)) with
        | .error e => .error e
        | .ok n =>
          match s.toList[1]? with
          | Option.none => .error .indexError
          | some b =>
            match pyInt (.jStr (String.singleton b)) with
            | .error e => .error e
            | .ok d =>
                if d = 0 then .error .zeroDivisionError else .ok ((n : ℚ) / (d : ℚ))
  | _ => .error .typeError

/-- `Fraction.serialize` (attributes.py lines 317-318):
`{'numerator': data.numerator, 'denominator': data.denominator}` on a
native fraction (a normalised rational, as `fractions.Fraction` is). -/
def Fraction.serialize (_f : Fraction) (data : ℚ) : JVal :=
  .jObj [("numerator", .jInt data.num), ("denominator", .jInt (data.den : Int))]

/- ----------------------------------------------------------------------
`TimeDelta` (attributes.py lines 376-421)
---------------------------------------------------------------------- -/

/-- The `TimeDelta` descriptor: `min`/`max` bounds (timedeltas, modelled in
seconds) and the `allow_none` flag inherited from `Attribute` (which
`TimeDelta`'s own methods never read). -/
structure TimeDelta where
  min : Option ℚ
  max : Option ℚ
  allow_none : Bool
deriving DecidableEq, Repr

/-- The `self.max`/`data` comparison at the end of `TimeDelta.pre_validate`. -/
def TimeDelta.checkMax (f : TimeDelta) (q : ℚ) (sp : SP) : Except PyErr Unit :=
  match f.max with
  | some m =>
      if m < q then .error (.invalidValue s!"The timedelta must be <= {m}." sp) else .ok ()
  | Option.none => .ok ()

/-- `TimeDelta.pre_validate` (attributes.py lines 401-415), with the
descriptor threaded through explicitly: the first component of the result
is the descriptor as the method leaves it (the source reads `self.min` and
`self.max` and assigns nothing to `self`).  `float(data)` is wrapped in
`try/except TypeError` only, so a `ValueError` (a non-numeric string)
propagates untyped; a `TypeError` becomes the typed `InvalidType`.  The
value is then converted to `timedelta(seconds=...)` and compared with the
bounds. -/
def TimeDelta.pre_validateS (f : TimeDelta) (data : JVal) (sp : SP) :
    TimeDelta × Except PyErr Unit :=
  match pyFloat data with
  | .error .typeError => (f, .error (.invalidType "Must be a number." sp))
  | .error e => (f, .error e)
  | .ok q =>
      match f.min with
      | some m =>
          if m > q then (f, .error (.invalidValue s!"The timedelta must be >= {m}." sp))
          else (f, f.checkMax q sp)
      | Option.none => (f, f.checkMax q sp)

/-- `TimeDelta.pre_validate`, result only. -/
def TimeDelta.pre_validate (f : TimeDelta) (data : JVal) (sp : SP) : Except PyErr Unit :=
  (f.pre_validateS data sp).2

/-- `TimeDelta.deserialize` (attributes.py lines 417-418):
`timedelta(seconds=float(data))`, state threaded; any exception of
`float()` propagates untyped here. -/
def TimeDelta.deserializeS (f : TimeDelta) (data : JVal) (_sp : SP) :
    TimeDelta × Except PyErr ℚ :=
  match pyFloat data with
  | .error e => (f, .error e)
  | .ok q => (f, .ok q)

/-- `TimeDelta.serialize` (attributes.py lines 420-421):
`data.total_seconds()`, a float. -/
def TimeDelta.serializeS (f : TimeDelta) (data : ℚ) : TimeDelta × JVal :=
  (f, .jFloat data)

/- ----------------------------------------------------------------------
`String` (attributes.py lines 75-129); the source also names it `Str`
---------------------------------------------------------------------- -/

/-- The `String` descriptor.  Its trafaret is an external collaborator
(the `trafaret` library is outside this repository), so it is carried as
an opaque value of type `τ` checked by an arbitrary function; `choices`
is non-`None` exactly when an `Enum` class was given, and then holds the
member names; `allow_none` comes from the `Attribute` base. -/
structure Str (τ : Type) where
  trafaret : τ
  choices : Option (List String)
  allow_none : Bool

/-- The result of `String.deserialize`: the wire value unchanged, or an
`Enum` member looked up by name. -/
inductive StrNative where
  | plain (v : JVal)
  | member (name : String)

/-- The argument of `String.serialize` (`Union[str, Type[Enum]]`): a plain
string, or an `Enum` class itself. -/
inductive StrSerIn where
  | ofStr (s : String)
  | enumCls (members : List String)

/-- `String.pre_validate` (attributes.py lines 103-115), state threaded.
`check` models `self._trafaret.check` (external contract: a value or a
`DataError` whose `as_dict()` is a detail).  When `self.choices` is not
`None` the possible member names are appended to the detail, and the
typed `InvalidValue` is raised. -/
def Str.pre_validateS {τ : Type} (check : τ → JVal → Except String JVal)
    (f : Str τ) (data : JVal) (sp : SP) : Str τ × Except PyErr Unit :=
  match check f.trafaret data with
  | .ok _ => (f, .ok ())
  | .error err =>
      match f.choices with
      | some cs =>
          (f, .error (.invalidValue (err ++ " (" ++ String.intercalate ", " cs ++ ")") sp))
      | Option.none => (f, .error (.invalidValue err sp))

/-- `String.deserialize` (attributes.py lines 117-122), state threaded:
`self.choices[data]` when `self.choices` is an `Enum` class and `data` is
one of its member names, otherwise `data` unchanged. -/
def Str.deserializeS {τ : Type} (f : Str τ) (data : JVal) (_sp : SP) :
    Str τ × StrNative :=
  match f.choices, data with
  | some cs, .jStr s => if s ∈ cs then (f, .member s) else (f, .plain data)
  | _, _ => (f, .plain data)

/-- `String.serialize` (attributes.py lines 124-129), state threaded.
`isinstance(data, type(Enum))` holds only for an `Enum` *class*, whose
`.name` access raises `AttributeError`; a plain string is checked by the
trafaret, whose `DataError` propagates untyped. -/
def Str.serializeS {τ : Type} (check : τ → JVal → Except String JVal)
    (f : Str τ) (data : StrSerIn) : Str τ × Except PyErr JVal :=
  match data with
  | .enumCls _ => (f, .error .attributeError)
  | .ofStr s => (f, (check f.trafaret (.jStr s)).mapError PyErr.dataError)

/- ----------------------------------------------------------------------
`Decimal` (attributes.py lines 222-254) and `UUID` (lines 424-460)
---------------------------------------------------------------------- -/

/-- The `Decimal` descriptor.  Its `DecimalTrafaret` (from
`fields/trafarets.py`, outside the sources at hand) is abstracted: the
claims about `Decimal` only exercise the `allow_none`/`None` path, which
lives entirely in attributes.py, so the trafaret check is an arbitrary
function argument of the methods. -/
structure Decimal where
  allow_none : Bool
deriving DecidableEq, Repr

/-- `Decimal.deserialize` (attributes.py lines 244-248): `None` passes
through when `allow_none` is set, otherwise `self._trafaret.check(data)`
(whose `DataError` would propagate untyped). -/
def Decimal.deserialize (check : JVal → Except String ℚ) (f : Decimal)
    (data : JVal) (_sp : SP) : Except PyErr (Option ℚ) :=
  if f.allow_none && data.isNone then .ok Option.none
  else ((check data).map some).mapError PyErr.dataError

/-- `Decimal.serialize` (attributes.py lines 250-254): `None` passes
through when `allow_none` is set, otherwise `str(self._trafaret.check(data))`
on the native value. -/
def Decimal.serialize (check : Option ℚ → Except String ℚ) (f : Decimal)
    (data : Option ℚ) : Except PyErr JVal :=
  if f.allow_none && data.isNone then .ok .jNone
  else ((check data).map (fun q => JVal.jStr (toString q))).mapError PyErr.dataError

/-- A native `uuid.UUID` value (identified by its hex digest, which is all
`serialize` reads of it). -/
structure PyUUID where
  hex : String
deriving DecidableEq, Repr

/-- The `UUID` descriptor: required `version` and `allow_none`. -/
structure UUIDAttr where
  version : Option ℕ
  allow_none : Bool
deriving DecidableEq, Repr

/-- `UUID.deserialize` (attributes.py lines 452-455): `None` passes
through when `allow_none` is set; otherwise `uuid.UUID(hex=data)` — the
`uuid` module is external, so parsing is an arbitrary function argument
(it raises `TypeError` when `data` is not a string). -/
def UUIDAttr.deserialize (parse : String → Except PyErr PyUUID) (f : UUIDAttr)
    (data : JVal) (_sp : SP) : Except PyErr (Option PyUUID) :=
  if f.allow_none && data.isNone then .ok Option.none
  else
    match data with
    | .jStr s => (parse s).map some
    | _ => .error .typeError

/-- `UUID.serialize` (attributes.py lines 457-460): `None` passes through
when `allow_none` is set, otherwise `data.hex` (so a `None` without
`allow_none` raises `AttributeError`). -/
def UUIDAttr.serialize (f : UUIDAttr) (data : Option PyUUID) : Except PyErr JVal :=
  if f.allow_none && data.isNone then .ok .jNone
  else
    match data with
    | some u => .ok (.jStr u.hex)
    | Option.none => .error .attributeError

/- ----------------------------------------------------------------------
`Dict` (attributes.py lines 525-556), `List` (559-599), `Tuple` (602-615)
---------------------------------------------------------------------- -/

/-- The `Dict` descriptor: the item field (`self.field`, of arbitrary
type, since the broken method bodies never reach it) and `allow_none`
from the `Attribute` base. -/
structure DictAttr (φ : Type) where
  field : φ
  allow_none : Bool

/-- `Dict.deserialize` (attributes.py lines 546-550): a dict comprehension
whose body is `self.field.deserialize(schema, value, sp / key)`.  The name
`schema` is unbound in this scope, so the first iteration raises
`NameError`; only an empty mapping (whose comprehension body never runs)
succeeds, returning `{}`.  A non-mapping has no `.items()`:
`AttributeError`. -/
def DictAttr.deserialize {φ : Type} (_f : DictAttr φ) (data : JVal) (_sp : SP) :
    Except PyErr JVal :=
  match data with
  | .jObj [] => .ok (.jObj [])
  | .jObj (_ :: _) => .error .nameError
  | _ => .error .attributeError

/-- `Dict.serialize` (attributes.py lines 552-556): same shape as
`deserialize`, with the unbound name `schema` in the comprehension body. -/
def DictAttr.serialize {φ : Type} (_f : DictAttr φ) (data : JVal) :
    Except PyErr JVal :=
  match data with
  | .jObj [] => .ok (.jObj [])
  | .jObj (_ :: _) => .error .nameError
  | _ => .error .attributeError

/-- The `List` descriptor: item field, `allow_none`; the
`min_length`/`max_length` bounds live in the trafaret, which only
`pre_validate` consults. -/
structure ListAttr (φ : Type) where
  field : φ
  allow_none : Bool

/-- `List.deserialize` (attributes.py lines 586-593): `None` passes
through when `allow_none` is set; otherwise a list comprehension over
`enumerate(data)` whose body evaluates the unbound name `schema`: an
empty iterable yields `[]`, a non-empty one raises `NameError`, and a
non-iterable raises `TypeError` (iterating a dict walks its keys, a
string its characters). -/
def ListAttr.deserialize {φ : Type} (f : ListAttr φ) (data : JVal) (_sp : SP) :
    Except PyErr JVal :=
  if f.allow_none && data.isNone then .ok .jNone
  else
    match data with
    | .jArr [] => .ok (.jArr [])
    | .jArr (_ :: _) => .error .nameError
    | .jObj [] => .ok (.jArr [])
    | .jObj (_ :: _) => .error .nameError
    | .jStr s => if s.isEmpty then .ok (.jArr []) else .error .nameError
    | _ => .error .typeError

/-- `List.serialize` (attributes.py lines 595-599): same shape, iterating
`data` directly. -/
def ListAttr.serialize {φ : Type} (f : ListAttr φ) (data : JVal) :
    Except PyErr JVal :=
  if f.allow_none && data.isNone then .ok .jNone
  else
    match data with
    | .jArr [] => .ok (.jArr [])
    | .jArr (_ :: _) => .error .nameError
    | .jObj [] => .ok (.jArr [])
    | .jObj (_ :: _) => .error .nameError
    | .jStr s => if s.isEmpty then .ok (.jArr []) else .error .nameError
    | _ => .error .typeError

/-- The `Tuple` descriptor (subclass of `List`). -/
structure TupleAttr (φ : Type) where
  field : φ
  allow_none : Bool

/-- `Tuple.deserialize` (attributes.py lines 603-611).  Its signature kept
an old `schema` parameter, so `super().deserialize(schema, data, sp,
**kwargs)` passes three positional arguments to `List.deserialize(self,
data, sp)`: Python raises `TypeError` while binding the call, before any
body runs — for every input, `None` included. -/
def TupleAttr.deserialize {φ : Type} (_f : TupleAttr φ) (_schemaArg : SVal)
    (_data : JVal) (_sp : SP) : Except PyErr JVal :=
  .error .typeError

/-- `Tuple.serialize` (attributes.py lines 613-615).  The body evaluates
the unbound name `schema` as the first argument of the super call, so
every invocation raises `NameError` — for every input, `None` included. -/
def TupleAttr.serialize {φ : Type} (_f : TupleAttr φ) (_data : JVal) :
    Except PyErr JVal :=
  .error .nameError

/- ----------------------------------------------------------------------
Theorems
---------------------------------------------------------------------- -/

theorem truthy_of_alistGet {d : List (RKey × SVal)} {k : RKey} {v : SVal}
    (hall : ∀ p ∈ d, (Prod.snd p).truthy = true) (h : alistGet d k = some v) :
    v.truthy = true := by
  rcases alistGet_mem d k v h with ⟨p, hp, hv⟩
  exact hv ▸ hall p hp

/-- C1: for every object, `Registry.get_schema` tries, in order,
`schema_by_resource[type(obj)]`, `schema_by_resource[obj]`,
`schema_by_type[obj]`, and returns the first hit; if none of the three
lookups yields a schema it returns the given default, and raises
`KeyError` when no default was given.  Stated for registries whose stored
values are schema objects (the falsy-value edge of the `or` chain is the
subject of C9). -/
theorem C1_get_schema_resolution_order (r : Registry) (obj : RObj) (default : Option SVal)
    (hres : ∀ p ∈ r.schema_by_resource, (Prod.snd p).truthy = true)
    (hty : ∀ p ∈ r.schema_by_type, (Prod.snd p).truthy = true) :
    r.get_schema obj default =
      match alistGet r.schema_by_resource (.ofType obj.typeOf) with
      | some s => .ok s
      | Option.none =>
        match alistGet r.schema_by_resource (.ofObj obj) with
        | some s => .ok s
        | Option.none =>
          match alistGet r.schema_by_type (.ofObj obj) with
          | some s => .ok s
          | Option.none =>
            match default with
            | some d => .ok d
            | Option.none => .error .keyError := by
  rcases h1 : alistGet r.schema_by_resource (.ofType obj.typeOf) with _ | s1
  · rcases h2 : alistGet r.schema_by_resource (.ofObj obj) with _ | s2
    · rcases h3 : alistGet r.schema_by_type (.ofObj obj) with _ | s3
      · cases default <;>
          simp [Registry.get_schema, pyGet, h1, h2, h3, pyOr, SVal.truthy]
      · have t3 := truthy_of_alistGet hty h3
        cases s3 <;> simp [SVal.truthy] at t3 <;>
          simp [Registry.get_schema, pyGet, h1, h2, h3, pyOr, SVal.truthy]
    · have t2 := truthy_of_alistGet hres h2
      cases s2 <;> simp [SVal.truthy] at t2 <;>
        simp [Registry.get_schema, pyGet, h1, h2, pyOr, SVal.truthy]
  · have t1 := truthy_of_alistGet hres h1
    cases s1 <;> simp [SVal.truthy] at t1 <;>
      simp [Registry.get_schema, pyGet, h1, pyOr, SVal.truthy]

/-- Witness for C1 at a concrete registry: the schema registered for the
resource class is found for an instance of that class. -/
theorem C1_get_schema_resolution_order_witness :
    (Registry.mk [] [(RKey.ofType ⟨"Article"⟩, SVal.vSchema "articles")]).get_schema
        (RObj.inst ⟨"Article"⟩ 0) Option.none = .ok (SVal.vSchema "articles") := by
  have h := C1_get_schema_resolution_order
    (Registry.mk [] [(RKey.ofType ⟨"Article"⟩, SVal.vSchema "articles")])
    (RObj.inst ⟨"Article"⟩ 0) Option.none (by decide) (by decide)
  simpa [alistGet, RObj.typeOf] using h

/-- C9 counterexample: a non-`None` falsy object registered in
`schema_by_type` is NOT skipped by `get_schema` — it is returned, instead
of the given default, because the `or` chain hands the last operand to the
`is not None` test unchanged. -/
theorem C9_counterexample :
    (Registry.mk [(RKey.ofObj (RObj.ofStr "x"), SVal.vFalsy)] []).get_schema
        (RObj.ofStr "x") (some (SVal.vSchema "D")) = .ok SVal.vFalsy ∧
    SVal.vFalsy ≠ SVal.vSchema "D" := by
  constructor
  · simp [Registry.get_schema, pyGet, alistGet, pyOr, SVal.truthy]
  · simp

/-- C9 amended: falsy values looked up through `schema_by_resource` (under
`type(obj)` or `obj`) are skipped by the `or` chain; the result is then
the `schema_by_type` value — returned as-is whenever it is not `None`,
even if falsy — and only when that too is `None` does `get_schema` behave
as if no schema were registered (the default, or `KeyError` without
one). -/
theorem C9_amended_falsy_chain (r : Registry) (obj : RObj) (default : Option SVal)
    (h1 : (pyGet r.schema_by_resource (.ofType obj.typeOf)).truthy = false)
    (h2 : (pyGet r.schema_by_resource (.ofObj obj)).truthy = false) :
    r.get_schema obj default =
      (if pyGet r.schema_by_type (.ofObj obj) ≠ SVal.vNone then
        .ok (pyGet r.schema_by_type (.ofObj obj))
      else
        match default with
        | some d => .ok d
        | Option.none => .error .keyError) := by
  simp [Registry.get_schema, pyOr, h1, h2]

/-- Witness for C9's amended statement: a falsy entry under
`schema_by_resource` is skipped and the `schema_by_type` schema is
found. -/
theorem C9_amended_falsy_chain_witness :
    (Registry.mk [(RKey.ofObj (RObj.ofStr "a"), SVal.vSchema "S")]
        [(RKey.ofObj (RObj.ofStr "a"), SVal.vFalsy)]).get_schema
      (RObj.ofStr "a") Option.none = .ok (SVal.vSchema "S") := by
  have h := C9_amended_falsy_chain
    (Registry.mk [(RKey.ofObj (RObj.ofStr "a"), SVal.vSchema "S")]
      [(RKey.ofObj (RObj.ofStr "a"), SVal.vFalsy)])
    (RObj.ofStr "a") Option.none (by decide) (by decide)
  simpa [pyGet, alistGet, RObj.typeOf] using h

/-- C4 counterexample: a mapping identifier that carries a third member
besides `'type'` and `'id'` is accepted by `ensure_identifier` (the code
never checks for extra keys), refuting "must carry exactly the keys
'type' and 'id'". -/
theorem C4_counterexample :
    (Registry.mk [] []).ensure_identifier (fun _ _ => "")
        (.mapping [("type", .pstr "people"), ("id", .pstr "42"), ("extra", .pint 1)])
      = .ok ⟨"people", "42"⟩ := by
  simp [Registry.ensure_identifier, alistGet, pyStrOf]

/-- C4 amended: a sequence identifier is accepted exactly when its length
is 2, and then yields `ResourceID(str(e0), str(e1))`; a mapping identifier
is accepted exactly when it carries the keys `'type'` and `'id'` — extra
keys are allowed — and then yields `ResourceID(str(type), str(id))`; a
mapping missing either key raises `KeyError`. -/
theorem C4_identifier_shape (r : Registry) (getId : String → RObj → String) :
    (∀ xs : List PyPrim,
      (∃ res, r.ensure_identifier getId (.tuple xs) = .ok res) ↔ xs.length = 2) ∧
    (∀ a b : PyPrim,
      r.ensure_identifier getId (.tuple [a, b]) = .ok ⟨pyStrOf a, pyStrOf b⟩) ∧
    (∀ (es : List (String × PyPrim)) (t i : PyPrim),
      alistGet es "type" = some t → alistGet es "id" = some i →
        r.ensure_identifier getId (.mapping es) = .ok ⟨pyStrOf t, pyStrOf i⟩) ∧
    (∀ es : List (String × PyPrim),
      alistGet es "type" = Option.none ∨ alistGet es "id" = Option.none →
        r.ensure_identifier getId (.mapping es) = .error .keyError) := by
  refine ⟨?_, ?_, ?_, ?_⟩
  · intro xs
    by_cases h : xs.length = 2 <;> simp [Registry.ensure_identifier, h]
  · intro a b
    simp [Registry.ensure_identifier]
  · intro es t i ht hi
    simp [Registry.ensure_identifier, ht, hi]
  · intro es h
    rcases h with h | h
    · simp [Registry.ensure_identifier, h]
    · cases ht : alistGet es "type" <;> simp [Registry.ensure_identifier, ht, h]

/-- Witness for C4's amended statement at concrete inputs: a well-formed
two-tuple and a well-formed mapping are accepted, a too-long tuple is
not. -/
theorem C4_identifier_shape_witness :
    (Registry.mk [] []).ensure_identifier (fun _ _ => "")
        (.tuple [.pstr "people", .pint 42]) = .ok ⟨"people", "42"⟩ ∧
    (Registry.mk [] []).ensure_identifier (fun _ _ => "")
        (.mapping [("type", .pstr "people"), ("id", .pstr "42")]) = .ok ⟨"people", "42"⟩ ∧
    ¬ ∃ res, (Registry.mk [] []).ensure_identifier (fun _ _ => "")
        (.tuple [.pstr "a", .pstr "b", .pstr "c"]) = .ok res := by
  have h := C4_identifier_shape (Registry.mk [] []) (fun _ _ => "")
  refine ⟨?_, ?_, ?_⟩
  · simpa [pyStrOf] using h.2.1 (.pstr "people") (.pint 42)
  · simpa [pyStrOf] using h.2.2.1 [("type", .pstr "people"), ("id", .pstr "42")]
      (.pstr "people") (.pstr "42") (by decide) (by decide)
  · intro hex
    have := (h.1 [.pstr "a", .pstr "b", .pstr "c"]).mp hex
    simp at this

/-- C8: a plain string handed to `ensure_identifier` is treated as a
`Sequence`: a string of length 2 is split into the `ResourceID` of its two
characters, and a string of any other length fails the length-2 assertion
with `AssertionError`; neither outcome involves schema resolution (the
result does not depend on the registry). -/
theorem C8_string_identifier (r : Registry) (getId : String → RObj → String) (s : String) :
    (s.length = 2 →
      r.ensure_identifier getId (.ofStr s) =
        .ok ⟨String.singleton (s.toList.getD 0 ' '),
             String.singleton (s.toList.getD 1 ' ')⟩) ∧
    (s.length ≠ 2 →
      r.ensure_identifier getId (.ofStr s) = .error .assertionError) := by
  constructor
  · intro h; simp [Registry.ensure_identifier, h]
  · intro h; simp [Registry.ensure_identifier, h]

/-- Witness for C8 at concrete strings: `"ab"` splits into
`("a", "b")`, `"people"` trips the assertion. -/
theorem C8_string_identifier_witness :
    (Registry.mk [] []).ensure_identifier (fun _ _ => "") (.ofStr "ab") = .ok ⟨"a", "b"⟩ ∧
    (Registry.mk [] []).ensure_identifier (fun _ _ => "") (.ofStr "people")
      = .error .assertionError := by
  constructor
  · have h := (C8_string_identifier (Registry.mk [] []) (fun _ _ => "") "ab").1 (by decide)
    simpa using h
  · exact (C8_string_identifier (Registry.mk [] []) (fun _ _ => "") "people").2 (by decide)

/-- C2: contrary to the claim, every wire object accepted by
`Fraction.pre_validate` is a JSON object carrying the string keys
`'numerator'` and `'denominator'`, while `Fraction.deserialize` subscripts
it with the integer keys 0 and 1 (`fractions.Fraction(int(data[0]),
int(data[1]))`), so deserialization of every accepted value raises
`KeyError` instead of returning the fraction. -/
theorem C2_fraction_deserialize_keyerror (f : Fraction) (data : JVal) (sp : SP)
    (h : f.pre_validate data sp = .ok ()) :
    f.deserialize data sp = .error .keyError := by
  cases data with
  | jObj es => simp [Fraction.deserialize]
  | jNone => simp [Fraction.pre_validate] at h
  | jBool b => simp [Fraction.pre_validate] at h
  | jInt n => simp [Fraction.pre_validate] at h
  | jFloat q => simp [Fraction.pre_validate] at h
  | jStr s => simp [Fraction.pre_validate] at h
  | jArr xs => simp [Fraction.pre_validate] at h

/-- Witness for C2: the docstring's own wire shape
`{'numerator': 1, 'denominator': 2}` passes `pre_validate` and then
`deserialize` raises `KeyError`. -/
theorem C2_fraction_deserialize_keyerror_witness :
    Fraction.pre_validate ⟨Option.none, Option.none⟩
        (.jObj [("numerator", .jInt 1), ("denominator", .jInt 2)]) [] = .ok () ∧
    Fraction.deserialize ⟨Option.none, Option.none⟩
        (.jObj [("numerator", .jInt 1), ("denominator", .jInt 2)]) [] = .error .keyError := by
  constructor
  · rfl
  · exact C2_fraction_deserialize_keyerror ⟨Option.none, Option.none⟩
      (.jObj [("numerator", .jInt 1), ("denominator", .jInt 2)]) [] (by rfl)

/-- C3: contrary to the claim, the comprehension bodies of
`Dict.deserialize`/`Dict.serialize` and `List.deserialize`/`List.serialize`
evaluate the unbound name `schema`, so every non-empty mapping or list
raises `NameError`; only the empty mapping/list (whose comprehension body
never runs) succeeds, with the empty result. -/
theorem C3_dict_list_nameerror {φ : Type} (df : DictAttr φ) (lf : ListAttr φ) (sp : SP) :
    (∀ (k : String) (v : JVal) (es : List (String × JVal)),
       df.deserialize (.jObj ((k, v) :: es)) sp = .error .nameError) ∧
    (∀ (k : String) (v : JVal) (es : List (String × JVal)),
       df.serialize (.jObj ((k, v) :: es)) = .error .nameError) ∧
    (∀ (x : JVal) (xs : List JVal),
       lf.deserialize (.jArr (x :: xs)) sp = .error .nameError) ∧
    (∀ (x : JVal) (xs : List JVal),
       lf.serialize (.jArr (x :: xs)) = .error .nameError) ∧
    df.deserialize (.jObj []) sp = .ok (.jObj []) ∧
    lf.deserialize (.jArr []) sp = .ok (.jArr []) := by
  refine ⟨fun k v es => rfl, fun k v es => rfl, ?_, ?_, rfl, ?_⟩
  · intro x xs
    simp [ListAttr.deserialize, JVal.isNone]
  · intro x xs
    simp [ListAttr.serialize, JVal.isNone]
  · simp [ListAttr.deserialize, JVal.isNone]

/-- C5: contrary to the claim, `TimeDelta.pre_validate` wraps `float(data)`
in `except TypeError` only; on a non-numeric string `float` raises
`ValueError`, which escapes untyped (neither `InvalidType` nor
`InvalidValue`). -/
theorem C5_timedelta_untyped_valueerror (f : TimeDelta) (sp : SP) :
    f.pre_validate (.jStr "abc") sp = .error .valueError := by
  have hp : pyFloat (.jStr "abc") = .error .valueError := by rfl
  simp [TimeDelta.pre_validate, TimeDelta.pre_validateS, hp]

/-- C6: serializing a complex number yields
`{'real': z.real, 'imag': z.imag}`, that object passes
`Complex.pre_validate`, and `Complex.deserialize` of it restores `z`:
serialize-then-deserialize is the identity on complex numbers. -/
theorem C6_complex_roundtrip (z : PyComplex) (sp : SP) :
    ComplexAttr.serialize z = .jObj [("real", .jFloat z.re), ("imag", .jFloat z.im)] ∧
    ComplexAttr.pre_validate (ComplexAttr.serialize z) sp = .ok () ∧
    ComplexAttr.deserialize (ComplexAttr.serialize z) sp = .ok z := by
  refine ⟨rfl, ?_, ?_⟩
  · simp [ComplexAttr.serialize, ComplexAttr.pre_validate, alistGet, JVal.numVal]
  · simp [ComplexAttr.serialize, ComplexAttr.deserialize, alistGet, JVal.numVal]

/-- C7: the `String` and `TimeDelta` descriptors (the representative field
descriptors embedded with explicit state threading) are stateless per
call: `pre_validate`, `deserialize` and `serialize` leave the descriptor's
configuration (trafaret, choices, min/max bounds, allow_none) unchanged,
and calling `pre_validate` again on the state left behind returns the same
result. -/
theorem C7_field_descriptors_stateless {τ : Type} (check : τ → JVal → Except String JVal)
    (f : Str τ) (g : TimeDelta) (data : JVal) (sIn : StrSerIn) (q : ℚ) (sp : SP) :
    (Str.pre_validateS check f data sp).1 = f ∧
    (Str.deserializeS f data sp).1 = f ∧
    (Str.serializeS check f sIn).1 = f ∧
    (g.pre_validateS data sp).1 = g ∧
    (g.deserializeS data sp).1 = g ∧
    (g.serializeS q).1 = g ∧
    (Str.pre_validateS check ((Str.pre_validateS check f data sp).1) data sp).2
      = (Str.pre_validateS check f data sp).2 ∧
    (TimeDelta.pre_validateS ((g.pre_validateS data sp).1) data sp).2
      = (g.pre_validateS data sp).2 := by
  have hs1 : (Str.pre_validateS check f data sp).1 = f := by
    unfold Str.pre_validateS
    cases check f.trafaret data with
    | ok v => rfl
    | error e =>
        cases f.choices with
        | none => rfl
        | some cs => rfl
  have hs2 : (Str.deserializeS f data sp).1 = f := by
    unfold Str.deserializeS
    rcases hc : f.choices with _ | cs <;> cases data <;> try rfl
    case some.jStr s =>
      by_cases hmem : s ∈ cs <;> simp [hmem]
  have hs3 : (Str.serializeS check f sIn).1 = f := by
    cases sIn <;> rfl
  have hg1 : (g.pre_validateS data sp).1 = g := by
    unfold TimeDelta.pre_validateS
    cases pyFloat data with
    | error e => cases e <;> rfl
    | ok v =>
        cases g.min with
        | none => rfl
        | some m => by_cases hm : m > v <;> simp [hm]
  have hg2 : (g.deserializeS data sp).1 = g := by
    unfold TimeDelta.deserializeS
    cases pyFloat data <;> rfl
  refine ⟨hs1, hs2, hs3, hg1, hg2, rfl, ?_, ?_⟩
  · rw [hs1]
  · rw [hg1]

/-- C10: `None` passes through `deserialize`/`serialize` unchanged for the
`allow_none`-aware `Decimal`, `UUID` and `List` descriptors — but,
contrary to the claim, not for `Tuple`: `Tuple.deserialize` raises
`TypeError` (its super call still passes the stale `schema` argument) and
`Tuple.serialize` raises `NameError` (its body evaluates the unbound name
`schema`), for every input including `None`. -/
theorem C10_allow_none_passthrough {φ : Type}
    (check : JVal → Except String ℚ) (check2 : Option ℚ → Except String ℚ)
    (parse : String → Except PyErr PyUUID)
    (d : Decimal) (u : UUIDAttr) (l : ListAttr φ) (t : TupleAttr φ)
    (sArg : SVal) (sp : SP)
    (hd : d.allow_none = true) (hu : u.allow_none = true) (hl : l.allow_none = true) :
    Decimal.deserialize check d .jNone sp = .ok Option.none ∧
    Decimal.serialize check2 d Option.none = .ok .jNone ∧
    UUIDAttr.deserialize parse u .jNone sp = .ok Option.none ∧
    UUIDAttr.serialize u Option.none = .ok .jNone ∧
    l.deserialize .jNone sp = .ok .jNone ∧
    l.serialize .jNone = .ok .jNone ∧
    t.deserialize sArg .jNone sp = .error .typeError ∧
    t.serialize .jNone = .error .nameError := by
  refine ⟨?_, ?_, ?_, ?_, ?_, ?_, rfl, rfl⟩
  · simp [Decimal.deserialize, hd, JVal.isNone]
  · simp [Decimal.serialize, hd]
  · simp [UUIDAttr.deserialize, hu, JVal.isNone]
  · simp [UUIDAttr.serialize, hu]
  · simp [ListAttr.deserialize, hl, JVal.isNone]
  · simp [ListAttr.serialize, hl, JVal.isNone]

/-- Witness for C10 at concrete descriptors (all with `allow_none`
set). -/
theorem C10_allow_none_passthrough_witness :
    Decimal.deserialize (fun _ => .error "") ⟨true⟩ .jNone [] = .ok Option.none ∧
    Decimal.serialize (fun _ => .error "") ⟨true⟩ Option.none = .ok .jNone ∧
    UUIDAttr.deserialize (fun _ => .error .valueError) ⟨Option.none, true⟩ .jNone []
      = .ok Option.none ∧
    UUIDAttr.serialize ⟨Option.none, true⟩ Option.none = .ok .jNone ∧
    ListAttr.deserialize (φ := Unit) ⟨(), true⟩ .jNone [] = .ok .jNone ∧
    ListAttr.serialize (φ := Unit) ⟨(), true⟩ .jNone = .ok .jNone ∧
    TupleAttr.deserialize (φ := Unit) ⟨(), true⟩ SVal.vNone .jNone [] = .error .typeError ∧
    TupleAttr.serialize (φ := Unit) ⟨(), true⟩ .jNone = .error .nameError := by
  exact C10_allow_none_passthrough (fun _ => .error "") (fun _ => .error "")
    (fun _ => .error .valueError) ⟨true⟩ ⟨Option.none, true⟩ ⟨(), true⟩ ⟨(), true⟩
    SVal.vNone [] rfl rfl rfl
